import Mathlib

/-!
# PressureSensorLib — verification of the frame decoder and pressure-field model

Shallow embedding of the MicroBit foot-pressure sensor library
(`PressureSensorLib` namespace of the repository).  The byte-stream scanner,
checksum validator and frame decoder are modelled as an explicit state record
and a per-byte step function mirroring `processInBackground`,
`validateChecksum` and `updateGlobalVariables`.  The Center-of-Pressure
calculation (`getCenterOfPressure`) is modelled over `ℚ` (exact rational
arithmetic standing for the host's numeric type); `Math.round` is modelled as
round-half-up.
-/

namespace PressureSensorLib

/-- Header sentinel byte, constant `0xAA` (source: `FRAME_HEADER`). -/
def FRAME_HEADER : Nat := 0xAA

/-- Size of the complete data-packet buffer (source: `BUFFER_SIZE`). -/
def BUFFER_SIZE : Nat := 40

/-- Event identifier raised after a frame passes checksum validation. -/
def EVENT_DATA_RECEIVED : Nat := 1

/-- Event identifier raised after a frame fails checksum validation. -/
def EVENT_CHECKSUM_ERROR : Nat := 2

/-- The mutable module state of the library relevant to frame processing:
the scanner's accumulation buffer and flags, and the retained sample
(`currentFootType`, `currentTimestamp`, `pointValues`, `dataUpdated`). -/
structure SensorState where
  dataBuffer : List Nat
  bufferIndex : Nat
  frameStarted : Bool
  currentFootType : Nat
  currentTimestamp : Nat
  pointValues : List Nat
  dataUpdated : Bool
deriving Repr, DecidableEq

/-- State after `init()`: a 40-entry zero buffer, 18 zero point values,
all flags cleared. -/
def initState : SensorState :=
  { dataBuffer := List.replicate BUFFER_SIZE 0
    bufferIndex := 0
    frameStarted := false
    currentFootType := 0
    currentTimestamp := 0
    pointValues := List.replicate 18 0
    dataUpdated := false }

/-- Source `validateChecksum`: sum of `dataBuffer[0..37]`, lower 8 bits
(`sum & 0xFF`, i.e. `% 256` on non-negative values), compared with
`dataBuffer[38]`. -/
def validateChecksum (buf : List Nat) : Bool :=
  (∑ i ∈ Finset.range 38, buf.getD i 0) % 256 == buf.getD 38 0

/-- Source `updateGlobalVariables`: copy the tag byte `dataBuffer[1]` into
`currentFootType` verbatim, record the clock `t`, decode the 18 big-endian
16-bit point values (`pointValues[i] = dataBuffer[2+2i]*256 + dataBuffer[3+2i]`)
and set the `dataUpdated` flag. -/
def updateGlobalVariables (s : SensorState) (t : Nat) : SensorState :=
  { s with
    currentFootType := s.dataBuffer.getD 1 0
    currentTimestamp := t
    pointValues := (List.range 18).map fun i =>
      s.dataBuffer.getD (2 + i * 2) 0 * 256 + s.dataBuffer.getD (3 + i * 2) 0
    dataUpdated := true }

/-- One iteration of the byte loop inside `processInBackground`: header
detection when not collecting, byte accumulation when collecting, and — once
39 bytes are in — checksum validation, publication and event emission.
Returns the new state and the list of events raised while processing the
byte (`t` models `control.millis()` at publication time). -/
def processByte (s : SensorState) (t : Nat) (b : Nat) : SensorState × List Nat :=
  if b = FRAME_HEADER ∧ s.frameStarted = false then
    ({ s with frameStarted := true, bufferIndex := 1,
              dataBuffer := s.dataBuffer.set 0 b }, [])
  else if s.frameStarted = true then
    let s1 : SensorState :=
      { s with dataBuffer := s.dataBuffer.set s.bufferIndex b,
               bufferIndex := s.bufferIndex + 1 }
    if 39 ≤ s1.bufferIndex then
      if validateChecksum s1.dataBuffer then
        ({ updateGlobalVariables s1 t with frameStarted := false, bufferIndex := 0 },
         [EVENT_DATA_RECEIVED])
      else
        ({ s1 with frameStarted := false, bufferIndex := 0 }, [EVENT_CHECKSUM_ERROR])
    else
      (s1, [])
  else
    (s, [])

/-- Process a list of bytes in order, concatenating the emitted events. -/
def processBytes (s : SensorState) (t : Nat) : List Nat → SensorState × List Nat
  | [] => (s, [])
  | b :: bs =>
    let p := processByte s t b
    let q := processBytes p.1 t bs
    (q.1, p.2 ++ q.2)

/-- One non-empty `serial.readBuffer` delivery inside `processInBackground`:
the frame status is reset (`frameStarted = false`) before parsing, and at
most `BUFFER_SIZE` bytes of the chunk are consumed
(`i < receivedBuffer.length && i < BUFFER_SIZE`). -/
def processChunk (s : SensorState) (t : Nat) (bytes : List Nat) :
    SensorState × List Nat :=
  processBytes { s with frameStarted := false } t (bytes.take BUFFER_SIZE)

/-- Source `isDataUpdated`: read-and-clear accessor for the `dataUpdated`
flag; returns the flag and resets it when it was set. -/
def isDataUpdated (s : SensorState) : SensorState × Bool :=
  if s.dataUpdated then ({ s with dataUpdated := false }, true) else (s, false)

/-- Source `getPointValue`: 1-based point accessor, returning 0 outside
the range `[1, 18]` and `pointValues[pointIndex - 1]` inside it. -/
def getPointValue (s : SensorState) (pointIndex : Int) : Nat :=
  if pointIndex < 1 ∨ 18 < pointIndex then 0
  else s.pointValues.getD (pointIndex - 1).toNat 0

/-- Source `isLeftFoot`: `currentFootType === FootType.Left` (`0x01`). -/
def isLeftFoot (s : SensorState) : Bool := s.currentFootType == 0x01

/-- Source `isRightFoot`: `currentFootType === FootType.Right` (`0x02`). -/
def isRightFoot (s : SensorState) : Bool := s.currentFootType == 0x02

/-! ## Center-of-Pressure model (`getCenterOfPressure`) -/

/-- Output-format selector of `getCenterOfPressure` (source enum `CoPFormat`). -/
inductive CoPFormat where
  | Coordinates
  | WithPressure
  | WithNormalizedPressure
  | AsString
  | WithPressureAsString
deriving Repr, DecidableEq

/-- Result of `getCenterOfPressure`.  The two string-producing formats are
modelled by the numeric values rendered into the string (the rounded
coordinates and the pressure percentage); string concatenation itself is
presentation-only. -/
inductive CoPResult where
  | coords (x y : ℚ)
  | withPressure (x y : ℚ) (p : ℤ)
  | withNormalized (x y p : ℚ)
  | asString (x y : ℚ)
  | withPressureAsString (x y pct : ℚ)
deriving Repr, DecidableEq

/-- JavaScript `Math.round`: round half toward positive infinity. -/
def jsRound (q : ℚ) : ℤ := ⌊q + 1 / 2⌋

/-- The static 18-entry sensor-coordinate table of `getCenterOfPressure`
(`pointCoordinates` local constant), in source order for points 1..18. -/
def basePointCoordinates : List (ℚ × ℚ) :=
  [(2/10, 8/10), (1/10, 9/10), (1/10, 3/10), (1/10, 2/10), (1/10, 5/10),
   (1/10, 7/10), (3/10, 8/10), (3/10, 9/10), (3/10, 3/10), (3/10, 2/10),
   (3/10, 5/10), (3/10, 7/10), (5/10, 8/10), (5/10, 9/10), (5/10, 5/10),
   (5/10, 7/10), (7/10, 8/10), (7/10, 9/10)]

/-- Coordinate table actually used for a given `currentFootType`: the base
table, x-mirrored (`x' = 1 - x`) exactly when the foot type equals
`FootType.Right` (`0x02`). -/
def pointCoordinates (footType : Nat) : List (ℚ × ℚ) :=
  if footType = 0x02 then basePointCoordinates.map fun c => (1 - c.1, c.2)
  else basePointCoordinates

/-- Running total `totalPressure` of the 18 point values. -/
def totalPressure (pts : List Nat) : Nat :=
  ∑ i ∈ Finset.range 18, pts.getD i 0

/-- Running maximum `maxPressure` of the 18 point values (initialised to 0). -/
def maxPressure (pts : List Nat) : Nat :=
  (Finset.range 18).sup fun i => pts.getD i 0

/-- Accumulated `weightedSumX` over the coordinate table for `footType`. -/
def weightedSumX (footType : Nat) (pts : List Nat) : ℚ :=
  ∑ i ∈ Finset.range 18,
    (pts.getD i 0 : ℚ) * ((pointCoordinates footType).getD i (0, 0)).1

/-- Accumulated `weightedSumY` over the coordinate table for `footType`. -/
def weightedSumY (footType : Nat) (pts : List Nat) : ℚ :=
  ∑ i ∈ Finset.range 18,
    (pts.getD i 0 : ℚ) * ((pointCoordinates footType).getD i (0, 0)).2

/-- Source `normalizedPressure`: `totalPressure / (maxPressure * 18)` when the
maximum is positive, `0` otherwise. -/
def normalizedPressure (pts : List Nat) : ℚ :=
  if 0 < maxPressure pts then
    (totalPressure pts : ℚ) / ((maxPressure pts : ℚ) * 18)
  else 0

/-- Source `getCenterOfPressure`, parameterised by the retained foot type and
point values.  When `totalPressure` is zero the explicit degenerate branch is
taken (the literal zero outputs of the source); otherwise the weighted
centroid is divided by the total, rescaled by `(· - 0.5) * 20`, and packaged
per format (rounding only in the presentation formats). -/
def getCenterOfPressure (footType : Nat) (format : CoPFormat)
    (pts : List Nat) : CoPResult :=
  if totalPressure pts = 0 then
    match format with
    | .Coordinates => .coords 0 0
    | .WithPressure => .withPressure 0 0 0
    | .WithNormalizedPressure => .withNormalized 0 0 0
    | .AsString => .asString 0 0
    | .WithPressureAsString => .withPressureAsString 0 0 0
  else
    let copX : ℚ := weightedSumX footType pts / (totalPressure pts : ℚ)
    let copY : ℚ := weightedSumY footType pts / (totalPressure pts : ℚ)
    let scaledX : ℚ := (copX - 1/2) * 20
    let scaledY : ℚ := (copY - 1/2) * 20
    let formattedX : ℚ := (jsRound (scaledX * 100) : ℚ) / 100
    let formattedY : ℚ := (jsRound (scaledY * 100) : ℚ) / 100
    let pressurePercentage : ℚ := (jsRound (normalizedPressure pts * 1000) : ℚ) / 10
    match format with
    | .Coordinates => .coords scaledX scaledY
    | .WithPressure =>
        .withPressure scaledX scaledY (jsRound (normalizedPressure pts * 100))
    | .WithNormalizedPressure =>
        .withNormalized scaledX scaledY (normalizedPressure pts)
    | .AsString => .asString formattedX formattedY
    | .WithPressureAsString =>
        .withPressureAsString formattedX formattedY pressurePercentage

/-! ## Concrete example frames -/

/-- A 39-byte frame: header, left-foot tag, all-zero payload, and the
correct checksum `(0xAA + 0x01) % 256 = 0xAB`. -/
def exampleValidFrame : List Nat := 0xAA :: 0x01 :: (List.replicate 36 0 ++ [0xAB])

/-- The same frame with a corrupted checksum byte. -/
def exampleBadFrame : List Nat := 0xAA :: 0x01 :: (List.replicate 36 0 ++ [0x00])

/-- A checksum-valid frame whose tag byte `0x03` is neither Left nor Right
(checksum `(0xAA + 0x03) % 256 = 0xAD`). -/
def exampleTagFrame : List Nat := 0xAA :: 0x03 :: (List.replicate 36 0 ++ [0xAD])

/-- A byte stream with a spurious header byte immediately before a real,
checksum-valid frame. -/
def exampleDoubleHeaderStream : List Nat := 0xAA :: exampleValidFrame

/-- An 18-entry point-value list with a single non-zero reading. -/
def examplePts : List Nat := 1 :: List.replicate 17 0

/-! ## Scanner infrastructure lemmas -/

/-- Write the bytes `bs` into `buf` at consecutive offsets starting at `j`
(the net effect of the scanner's `dataBuffer[bufferIndex++] = incomingByte`
writes during one collection run). -/
def writeBytes : List Nat → Nat → List Nat → List Nat
  | buf, _, [] => buf
  | buf, j, b :: bs => writeBytes (buf.set j b) (j + 1) bs

theorem writeBytes_length (bs : List Nat) :
    ∀ (buf : List Nat) (j : Nat), (writeBytes buf j bs).length = buf.length := by
  induction bs with
  | nil => intro buf j; rfl
  | cons b bs ih => intro buf j; simp [writeBytes, ih]

theorem getD_writeBytes_lt (bs : List Nat) :
    ∀ (buf : List Nat) (j k d : Nat), k < j →
      (writeBytes buf j bs).getD k d = buf.getD k d := by
  induction bs with
  | nil => intro buf j k d _; rfl
  | cons b bs ih =>
    intro buf j k d hk
    rw [writeBytes, ih _ _ _ _ (by omega)]
    simp [List.getD_eq_getElem?_getD, List.getElem?_set_ne (by omega : j ≠ k)]

theorem getD_writeBytes (bs : List Nat) :
    ∀ (buf : List Nat) (j k d : Nat), k < bs.length → j + bs.length ≤ buf.length →
      (writeBytes buf j bs).getD (j + k) d = bs.getD k d := by
  induction bs with
  | nil => intro buf j k d hk _; simp at hk
  | cons b bs ih =>
    intro buf j k d hk hle
    match k with
    | 0 =>
      rw [writeBytes, Nat.add_zero,
        getD_writeBytes_lt bs _ _ _ _ (by omega)]
      have hj : j < buf.length := by simp at hle; omega
      simp [List.getD_eq_getElem?_getD, List.getElem?_set_eq_of_lt, hj]
    | k' + 1 =>
      have : j + (k' + 1) = (j + 1) + k' := by omega
      rw [writeBytes, this, ih _ _ _ _ (by simp at hk; omega) (by simp at hle ⊢; omega)]
      rfl

/-- Collection run: from a mid-collection state (`frameStarted`, write offset
`bufferIndex ∈ [1, 38]`), feeding exactly the bytes that complete the frame
ends with validation of the filled buffer, a single terminal event, and a
reset scanner. -/
theorem processBytes_collect (bs : List Nat) :
    ∀ (s : SensorState) (t : Nat), s.frameStarted = true →
      1 ≤ s.bufferIndex → s.bufferIndex ≤ 38 → s.bufferIndex + bs.length = 39 →
      processBytes s t bs =
        if validateChecksum (writeBytes s.dataBuffer s.bufferIndex bs) then
          ({ s with dataBuffer := writeBytes s.dataBuffer s.bufferIndex bs,
                    bufferIndex := 0, frameStarted := false,
                    currentFootType :=
                      (writeBytes s.dataBuffer s.bufferIndex bs).getD 1 0,
                    currentTimestamp := t,
                    pointValues := (List.range 18).map fun i =>
                      (writeBytes s.dataBuffer s.bufferIndex bs).getD (2 + i * 2) 0 * 256 +
                        (writeBytes s.dataBuffer s.bufferIndex bs).getD (3 + i * 2) 0,
                    dataUpdated := true }, [EVENT_DATA_RECEIVED])
        else
          ({ s with dataBuffer := writeBytes s.dataBuffer s.bufferIndex bs,
                    bufferIndex := 0, frameStarted := false },
           [EVENT_CHECKSUM_ERROR]) := by
  induction bs with
  | nil =>
    intro s t hf h1 h38 hsum
    simp at hsum
    omega
  | cons b bs ih =>
    intro s t hf h1 h38 hsum
    by_cases hlast : s.bufferIndex = 38
    · have hbs : bs = [] := by
        have hb : bs.length = 0 := by simp at hsum; omega
        exact List.length_eq_zero.mp hb
      subst hbs
      simp only [processBytes, processByte]
      rw [if_neg (fun hcon => by simp [hf] at hcon), if_pos hf,
        if_pos (show 39 ≤ s.bufferIndex + 1 by omega)]
      simp only [writeBytes, hlast]
      split
      · simp [updateGlobalVariables]
      · simp
    · have hlt : ¬ 39 ≤ s.bufferIndex + 1 := by omega
      simp only [processBytes, processByte]
      rw [if_neg (fun hcon => by simp [hf] at hcon), if_pos hf, if_neg hlt]
      rw [ih _ t (by simp [hf]) (by simp <;> omega) (by simp <;> omega)
        (by simp at hsum ⊢ <;> omega)]
      simp only [writeBytes]
      split <;> simp

/-- The buffer collected while scanning a frame `b0 :: rest` reproduces the
frame bytes at every offset below 39. -/
theorem collectedFrame_getD (s : SensorState) (b0 : Nat) (rest : List Nat)
    (hbuf : s.dataBuffer.length = 40) (hrest : rest.length = 38)
    (i : Nat) (hi : i < 39) :
    (writeBytes (s.dataBuffer.set 0 b0) 1 rest).getD i 0 =
      (b0 :: rest).getD i 0 := by
  match i with
  | 0 =>
    rw [getD_writeBytes_lt rest _ _ _ _ (by omega)]
    simp [List.getD_eq_getElem?_getD, List.getElem?_set_eq_of_lt, hbuf]
  | k + 1 =>
    have h1k : 1 + k = k + 1 := by omega
    rw [← h1k, getD_writeBytes rest _ _ _ _ (by omega) (by simp [hbuf]; omega),
      h1k]
    simp

/-- Scanning the buffer collected from `b0 :: rest` validates exactly when
the frame itself validates. -/
theorem validateChecksum_collected (s : SensorState) (b0 : Nat) (rest : List Nat)
    (hbuf : s.dataBuffer.length = 40) (hrest : rest.length = 38) :
    validateChecksum (writeBytes (s.dataBuffer.set 0 b0) 1 rest) =
      validateChecksum (b0 :: rest) := by
  unfold validateChecksum
  have h38 := collectedFrame_getD s b0 rest hbuf hrest 38 (by omega)
  have hsum : (∑ i ∈ Finset.range 38,
      (writeBytes (s.dataBuffer.set 0 b0) 1 rest).getD i 0) =
      ∑ i ∈ Finset.range 38, (b0 :: rest).getD i 0 := by
    refine Finset.sum_congr rfl fun i hi => ?_
    exact collectedFrame_getD s b0 rest hbuf hrest i
      (by have := Finset.mem_range.mp hi; omega)
  rw [hsum, h38]

/-- Processing one chunk that is exactly a 39-byte frame with a valid
checksum: the sample is published (tag byte copied verbatim, big-endian
points decoded, timestamp and flag set) and exactly one data-received event
is raised. -/
theorem processChunk_validFrame (s : SensorState) (t : Nat) (frame : List Nat)
    (hbuf : s.dataBuffer.length = 40) (hlen : frame.length = 39)
    (hhdr : frame.getD 0 0 = FRAME_HEADER)
    (hok : (∑ i ∈ Finset.range 38, frame.getD i 0) % 256 = frame.getD 38 0) :
    (processChunk s t frame).2 = [EVENT_DATA_RECEIVED] ∧
    (processChunk s t frame).1.currentFootType = frame.getD 1 0 ∧
    (processChunk s t frame).1.currentTimestamp = t ∧
    (processChunk s t frame).1.pointValues = (List.range 18).map (fun i =>
      frame.getD (2 + i * 2) 0 * 256 + frame.getD (3 + i * 2) 0) ∧
    (processChunk s t frame).1.dataUpdated = true ∧
    (processChunk s t frame).1.dataBuffer.length = 40 ∧
    (processChunk s t frame).1.frameStarted = false := by
  match frame, hlen with
  | b0 :: rest, hlen =>
  have hrest : rest.length = 38 := by simp at hlen; omega
  have hb0 : b0 = FRAME_HEADER := hhdr
  subst hb0
  have htake : (FRAME_HEADER :: rest).take BUFFER_SIZE = FRAME_HEADER :: rest :=
    List.take_of_length_le (by simp [BUFFER_SIZE]; omega)
  unfold processChunk
  rw [htake]
  simp only [processBytes, processByte]
  simp only [and_self, ite_true]
  rw [processBytes_collect rest _ t rfl (by simp) (by simp) (by simp [hrest])]
  have hv : validateChecksum
      (writeBytes (({ s with frameStarted := false } :
        SensorState).dataBuffer.set 0 FRAME_HEADER) 1 rest) = true := by
    rw [validateChecksum_collected { s with frameStarted := false }
      FRAME_HEADER rest (by simpa using hbuf) hrest]
    simpa [validateChecksum] using hok
  rw [if_pos hv]
  refine ⟨by simp, ?_, by simp, ?_, by simp, ?_, by simp⟩
  · simpa using collectedFrame_getD { s with frameStarted := false }
      FRAME_HEADER rest (by simpa using hbuf) hrest 1 (by omega)
  · simp only
    refine List.map_congr_left fun i hi => ?_
    have hi18 : i < 18 := by simpa using hi
    rw [collectedFrame_getD { s with frameStarted := false }
        FRAME_HEADER rest (by simpa using hbuf) hrest (2 + i * 2) (by omega),
      collectedFrame_getD { s with frameStarted := false }
        FRAME_HEADER rest (by simpa using hbuf) hrest (3 + i * 2) (by omega)]
  · simp [writeBytes_length, hbuf]

/-- Processing one chunk that is exactly a 39-byte frame with an invalid
checksum: exactly one checksum-error event, no data event, and the retained
sample (`currentFootType`, `pointValues`, `currentTimestamp`, `dataUpdated`)
is untouched. -/
theorem processChunk_invalidFrame (s : SensorState) (t : Nat) (frame : List Nat)
    (hbuf : s.dataBuffer.length = 40) (hlen : frame.length = 39)
    (hhdr : frame.getD 0 0 = FRAME_HEADER)
    (hbad : (∑ i ∈ Finset.range 38, frame.getD i 0) % 256 ≠ frame.getD 38 0) :
    (processChunk s t frame).2 = [EVENT_CHECKSUM_ERROR] ∧
    (processChunk s t frame).1.currentFootType = s.currentFootType ∧
    (processChunk s t frame).1.pointValues = s.pointValues ∧
    (processChunk s t frame).1.currentTimestamp = s.currentTimestamp ∧
    (processChunk s t frame).1.dataUpdated = s.dataUpdated ∧
    (processChunk s t frame).1.dataBuffer.length = 40 ∧
    (processChunk s t frame).1.frameStarted = false := by
  match frame, hlen with
  | b0 :: rest, hlen =>
  have hrest : rest.length = 38 := by simp at hlen; omega
  have hb0 : b0 = FRAME_HEADER := hhdr
  subst hb0
  have htake : (FRAME_HEADER :: rest).take BUFFER_SIZE = FRAME_HEADER :: rest :=
    List.take_of_length_le (by simp [BUFFER_SIZE]; omega)
  unfold processChunk
  rw [htake]
  simp only [processBytes, processByte]
  simp only [and_self, ite_true]
  rw [processBytes_collect rest _ t rfl (by simp) (by simp) (by simp [hrest])]
  have hv : validateChecksum
      (writeBytes (({ s with frameStarted := false } :
        SensorState).dataBuffer.set 0 FRAME_HEADER) 1 rest) = false := by
    rw [validateChecksum_collected { s with frameStarted := false }
      FRAME_HEADER rest (by simpa using hbuf) hrest]
    simpa [validateChecksum] using hbad
  rw [if_neg (by simp [hv])]
  refine ⟨by simp, by simp, by simp, by simp, by simp, ?_, by simp⟩
  simp [writeBytes_length, hbuf]

/-- The sum of the first `n` positions read through `getD` equals the sum of
the `n`-element prefix, when the list is long enough. -/
theorem sum_range_getD (l : List Nat) :
    ∀ n, n ≤ l.length → (∑ i ∈ Finset.range n, l.getD i 0) = (l.take n).sum := by
  intro n
  induction n with
  | zero => simp
  | succ k ih =>
    intro hk
    have hkl : k < l.length := by omega
    rw [Finset.sum_range_succ, ih (by omega), List.take_succ, List.sum_append,
      List.getElem?_eq_getElem hkl, List.getD_eq_getElem l 0 hkl]
    simp

/-- A single processed byte never changes the length of `pointValues` away
from 18. -/
theorem processByte_pointValues_length (s : SensorState) (t b : Nat)
    (h : s.pointValues.length = 18) :
    (processByte s t b).1.pointValues.length = 18 := by
  by_cases h1 : b = FRAME_HEADER ∧ s.frameStarted = false
  · simp [processByte, h1, h]
  · by_cases h2 : s.frameStarted = true
    · by_cases h3 : 39 ≤ s.bufferIndex + 1
      · cases hv : validateChecksum (s.dataBuffer.set s.bufferIndex b) with
        | false => simp [processByte, h1, h2, h3, hv, h]
        | true => simp [processByte, h1, h2, h3, hv, updateGlobalVariables]
      · simp [processByte, h1, h2, h3, h]
    · unfold processByte
      rw [if_neg h1, if_neg h2]
      exact h

/-- Processing any byte list preserves `pointValues.length = 18`. -/
theorem processBytes_pointValues_length (bs : List Nat) :
    ∀ (s : SensorState) (t : Nat), s.pointValues.length = 18 →
      (processBytes s t bs).1.pointValues.length = 18 := by
  induction bs with
  | nil => intro s t h; simpa [processBytes]
  | cons b bs ih =>
    intro s t h
    simp only [processBytes]
    exact ih _ t (processByte_pointValues_length s t b h)

/-- If processing a byte list raises no data-received event, the
`dataUpdated` flag is untouched. -/
theorem processBytes_dataUpdated_of_no_event (bs : List Nat) :
    ∀ (s : SensorState) (t : Nat),
      EVENT_DATA_RECEIVED ∉ (processBytes s t bs).2 →
      (processBytes s t bs).1.dataUpdated = s.dataUpdated := by
  induction bs with
  | nil => intro s t _; rfl
  | cons b bs ih =>
    intro s t hno
    simp only [processBytes] at hno ⊢
    rw [List.mem_append] at hno
    push_neg at hno
    have hrest := ih (processByte s t b).1 t hno.2
    rw [hrest]
    have h1 := hno.1
    by_cases hc1 : b = FRAME_HEADER ∧ s.frameStarted = false
    · simp [processByte, hc1]
    · by_cases hc2 : s.frameStarted = true
      · by_cases hc3 : 39 ≤ s.bufferIndex + 1
        · cases hv : validateChecksum (s.dataBuffer.set s.bufferIndex b) with
          | false => simp [processByte, hc1, hc2, hc3, hv]
          | true =>
            exfalso
            apply h1
            simp [processByte, hc1, hc2, hc3, hv]
        · simp [processByte, hc1, hc2, hc3]
      · unfold processByte
        rw [if_neg hc1, if_neg hc2]

/-- Reading any in-range position of a byte-bounded list stays below 256. -/
theorem getD_lt_of_mem_bound (l : List Nat) (hb : ∀ b ∈ l, b < 256)
    (j : Nat) (hj : j < l.length) : l.getD j 0 < 256 := by
  rw [List.getD_eq_getElem _ _ hj]
  exact hb _ (List.getElem_mem hj)

/-! ## Claim theorems -/

/-- C1: a completed 39-byte frame whose checksum byte differs from the
modulo-256 sum of bytes 0..37 raises exactly one checksum-error event
(`EVENT_CHECKSUM_ERROR`), no data-received event, and leaves the retained
sample state (`currentFootType`, `pointValues`, `currentTimestamp`,
`dataUpdated`) completely unchanged. -/
theorem checksum_mismatch_one_error_sample_retained
    (s : SensorState) (t : Nat) (frame : List Nat)
    (hbuf : s.dataBuffer.length = 40) (hlen : frame.length = 39)
    (hhdr : frame.getD 0 0 = FRAME_HEADER)
    (hbad : (∑ i ∈ Finset.range 38, frame.getD i 0) % 256 ≠ frame.getD 38 0) :
    (processChunk s t frame).2 = [EVENT_CHECKSUM_ERROR] ∧
    EVENT_DATA_RECEIVED ∉ (processChunk s t frame).2 ∧
    (processChunk s t frame).1.currentFootType = s.currentFootType ∧
    (processChunk s t frame).1.pointValues = s.pointValues ∧
    (processChunk s t frame).1.currentTimestamp = s.currentTimestamp ∧
    (processChunk s t frame).1.dataUpdated = s.dataUpdated := by
  obtain ⟨h1, h2, h3, h4, h5, -, -⟩ :=
    processChunk_invalidFrame s t frame hbuf hlen hhdr hbad
  refine ⟨h1, ?_, h2, h3, h4, h5⟩
  rw [h1]
  decide

/-- Witness for C1 at a concrete corrupted frame. -/
theorem checksum_mismatch_one_error_sample_retained_witness :
    (processChunk initState 0 exampleBadFrame).2 = [EVENT_CHECKSUM_ERROR] ∧
    EVENT_DATA_RECEIVED ∉ (processChunk initState 0 exampleBadFrame).2 ∧
    (processChunk initState 0 exampleBadFrame).1.currentFootType =
      initState.currentFootType ∧
    (processChunk initState 0 exampleBadFrame).1.pointValues =
      initState.pointValues ∧
    (processChunk initState 0 exampleBadFrame).1.currentTimestamp =
      initState.currentTimestamp ∧
    (processChunk initState 0 exampleBadFrame).1.dataUpdated =
      initState.dataUpdated :=
  checksum_mismatch_one_error_sample_retained initState 0 exampleBadFrame
    (by decide) (by decide) (by decide) (by decide)

/-- C4: checksum validation returns `true` exactly when the modulo-256 sum of
the first 38 bytes equals byte 38; it is a pure function of the frame, so it
is deterministic and has no effect on any sample state. -/
theorem validateChecksum_spec (frame : List Nat) (hlen : frame.length = 39) :
    (validateChecksum frame = true ↔
      (frame.take 38).sum % 256 = frame.getD 38 0) ∧
    ∀ g : List Nat, g = frame → validateChecksum g = validateChecksum frame := by
  constructor
  · rw [validateChecksum, beq_iff_eq, sum_range_getD frame 38 (by omega)]
  · intro g hg
    rw [hg]

/-- Witness for C4 at a concrete valid frame. -/
theorem validateChecksum_spec_witness :
    (validateChecksum exampleValidFrame = true ↔
      (exampleValidFrame.take 38).sum % 256 = exampleValidFrame.getD 38 0) ∧
    ∀ g : List Nat, g = exampleValidFrame →
      validateChecksum g = validateChecksum exampleValidFrame :=
  validateChecksum_spec exampleValidFrame (by decide)

/-- C9: `getPointValue i` returns `pointValues[i-1]` (an in-bounds access)
for every integer `i` in `[1, 18]`, and returns `0` for every integer outside
that range. -/
theorem getPointValue_spec (s : SensorState)
    (h18 : s.pointValues.length = 18) (i : Int) :
    (1 ≤ i → i ≤ 18 → ∃ h : (i - 1).toNat < s.pointValues.length,
      getPointValue s i = s.pointValues.get ⟨(i - 1).toNat, h⟩) ∧
    ((i < 1 ∨ 18 < i) → getPointValue s i = 0) := by
  constructor
  · intro h1 h2
    have hlt : (i - 1).toNat < s.pointValues.length := by
      rw [h18]; omega
    refine ⟨hlt, ?_⟩
    rw [getPointValue, if_neg (by omega)]
    rw [List.getD_eq_getElem s.pointValues 0 hlt]
    rfl
  · intro hout
    rw [getPointValue, if_pos hout]

/-- Witness for C9 at a concrete state and index. -/
theorem getPointValue_spec_witness :
    ((1 : Int) ≤ 5 → (5 : Int) ≤ 18 →
      ∃ h : ((5 : Int) - 1).toNat < initState.pointValues.length,
        getPointValue initState 5 =
          initState.pointValues.get ⟨((5 : Int) - 1).toNat, h⟩) ∧
    (((5 : Int) < 1 ∨ (18 : Int) < 5) → getPointValue initState 5 = 0) :=
  getPointValue_spec initState (by decide) 5

/-- C10: `isDataUpdated` has read-and-clear semantics — it returns the
current flag, a `true` result clears the flag so an immediately repeated call
returns `false`, and after a `true` result any amount of byte processing that
publishes no sample (no data-received event) still leaves the next call
returning `false`. -/
theorem isDataUpdated_read_and_clear (s : SensorState) :
    (isDataUpdated s).2 = s.dataUpdated ∧
    ((isDataUpdated s).2 = true →
      (isDataUpdated s).1.dataUpdated = false ∧
      (isDataUpdated (isDataUpdated s).1).2 = false) ∧
    ((isDataUpdated s).2 = true → ∀ (t : Nat) (bs : List Nat),
      EVENT_DATA_RECEIVED ∉ (processBytes (isDataUpdated s).1 t bs).2 →
      (isDataUpdated (processBytes (isDataUpdated s).1 t bs).1).2 = false) := by
  by_cases h : s.dataUpdated = true
  · refine ⟨by simp [isDataUpdated, h], fun _ => ⟨by simp [isDataUpdated, h], ?_⟩,
      fun _ t bs hno => ?_⟩
    · simp [isDataUpdated, h]
    · have hpres := processBytes_dataUpdated_of_no_event bs (isDataUpdated s).1 t hno
      have hclear : (isDataUpdated s).1.dataUpdated = false := by
        simp [isDataUpdated, h]
      rw [isDataUpdated, if_neg (by rw [hpres, hclear]; simp)]
  · have hf : s.dataUpdated = false := by simpa using h
    refine ⟨by simp [isDataUpdated, hf], fun habs => ?_, fun habs => ?_⟩
    · rw [isDataUpdated, if_neg (by simp [hf])] at habs
      simp at habs
    · rw [isDataUpdated, if_neg (by simp [hf])] at habs
      simp at habs

/-- Witness for C10 at a concrete state with the flag set. -/
theorem isDataUpdated_read_and_clear_witness :
    ((isDataUpdated { initState with dataUpdated := true }).2 =
      { initState with dataUpdated := true }.dataUpdated) ∧
    ((isDataUpdated { initState with dataUpdated := true }).2 = true →
      (isDataUpdated { initState with dataUpdated := true }).1.dataUpdated = false ∧
      (isDataUpdated (isDataUpdated { initState with dataUpdated := true }).1).2 =
        false) ∧
    ((isDataUpdated { initState with dataUpdated := true }).2 = true →
      ∀ (t : Nat) (bs : List Nat),
      EVENT_DATA_RECEIVED ∉
        (processBytes (isDataUpdated { initState with dataUpdated := true }).1 t bs).2 →
      (isDataUpdated
        (processBytes (isDataUpdated { initState with dataUpdated := true }).1 t bs).1).2 =
        false) :=
  isDataUpdated_read_and_clear { initState with dataUpdated := true }

/-- C6: when all 18 point values are zero, `getCenterOfPressure` takes the
explicit zero-total branch and returns the degenerate centroid `(0, 0)` with
zero pressure in every output format, for every foot side. -/
theorem cop_all_zero_degenerate (footType : Nat) (format : CoPFormat)
    (pts : List Nat) (h : ∀ i, i < 18 → pts.getD i 0 = 0) :
    getCenterOfPressure footType format pts =
      match format with
      | .Coordinates => .coords 0 0
      | .WithPressure => .withPressure 0 0 0
      | .WithNormalizedPressure => .withNormalized 0 0 0
      | .AsString => .asString 0 0
      | .WithPressureAsString => .withPressureAsString 0 0 0 := by
  have htot : totalPressure pts = 0 :=
    Finset.sum_eq_zero fun i hi => h i (Finset.mem_range.mp hi)
  rw [getCenterOfPressure.eq_def, if_pos htot]

/-- Witness for C6 at the all-zero sample, Right foot, string format. -/
theorem cop_all_zero_degenerate_witness :
    getCenterOfPressure 0x02 CoPFormat.WithPressureAsString
        (List.replicate 18 0) =
      CoPResult.withPressureAsString 0 0 0 :=
  cop_all_zero_degenerate 0x02 CoPFormat.WithPressureAsString
    (List.replicate 18 0) (by decide)

/-- C2 counterexample: a checksum-valid frame whose tag byte is `0x03` is
published as valid, but the stored foot type is the raw byte `0x03`, not the
`Unknown` value `0xFF` — `updateGlobalVariables` copies `dataBuffer[1]`
verbatim and performs no mapping of malformed tags to `Unknown`. -/
theorem footType_not_mapped_to_unknown_cex :
    (processChunk initState 0 exampleTagFrame).2 = [EVENT_DATA_RECEIVED] ∧
    (processChunk initState 0 exampleTagFrame).1.currentFootType = 0x03 ∧
    ¬ (processChunk initState 0 exampleTagFrame).1.currentFootType = 0xFF := by
  decide

/-- C2 amended: decoding a validated frame stores `frame[1]` in
`currentFootType` verbatim — Left iff the tag is `0x01`, Right iff it is
`0x02`, and any other tag value is stored as-is (so neither `isLeftFoot` nor
`isRightFoot` holds) — and the sample is still published as valid, never as
an error. -/
theorem footType_tag_copied_verbatim (s : SensorState) (t : Nat)
    (frame : List Nat) (hbuf : s.dataBuffer.length = 40)
    (hlen : frame.length = 39) (hhdr : frame.getD 0 0 = FRAME_HEADER)
    (hok : (∑ i ∈ Finset.range 38, frame.getD i 0) % 256 = frame.getD 38 0) :
    (processChunk s t frame).1.currentFootType = frame.getD 1 0 ∧
    (processChunk s t frame).2 = [EVENT_DATA_RECEIVED] ∧
    (isLeftFoot (processChunk s t frame).1 = true ↔ frame.getD 1 0 = 0x01) ∧
    (isRightFoot (processChunk s t frame).1 = true ↔ frame.getD 1 0 = 0x02) := by
  obtain ⟨e1, e2, -, -, -, -, -⟩ :=
    processChunk_validFrame s t frame hbuf hlen hhdr hok
  exact ⟨e2, e1, by simp [isLeftFoot, e2], by simp [isRightFoot, e2]⟩

/-- Witness for the amended C2 at a concrete left-foot frame. -/
theorem footType_tag_copied_verbatim_witness :
    (processChunk initState 0 exampleValidFrame).1.currentFootType =
      exampleValidFrame.getD 1 0 ∧
    (processChunk initState 0 exampleValidFrame).2 = [EVENT_DATA_RECEIVED] ∧
    (isLeftFoot (processChunk initState 0 exampleValidFrame).1 = true ↔
      exampleValidFrame.getD 1 0 = 0x01) ∧
    (isRightFoot (processChunk initState 0 exampleValidFrame).1 = true ↔
      exampleValidFrame.getD 1 0 = 0x02) :=
  footType_tag_copied_verbatim initState 0 exampleValidFrame
    (by decide) (by decide) (by decide) (by decide)

/-- C5: decoding a validated byte-valued frame yields exactly 18 point
values, `points[i] = frame[2+2i] * 256 + frame[3+2i]` (big-endian, high byte
first), each below 2^16; moreover every processing step preserves
`pointValues.length = 18`. -/
theorem decode_points_bigEndian_and_bounds (s : SensorState) (t : Nat)
    (frame : List Nat) (hbuf : s.dataBuffer.length = 40)
    (hlen : frame.length = 39) (hhdr : frame.getD 0 0 = FRAME_HEADER)
    (hok : (∑ i ∈ Finset.range 38, frame.getD i 0) % 256 = frame.getD 38 0)
    (hbytes : ∀ b ∈ frame, b < 256) :
    (processChunk s t frame).1.pointValues.length = 18 ∧
    (∀ i, i < 18 → (processChunk s t frame).1.pointValues.getD i 0 =
      frame.getD (2 + 2 * i) 0 * 256 + frame.getD (3 + 2 * i) 0) ∧
    (∀ v ∈ (processChunk s t frame).1.pointValues, v < 65536) ∧
    (∀ (s2 : SensorState), s2.pointValues.length = 18 →
      ∀ (t2 : Nat) (bs : List Nat),
        (processBytes s2 t2 bs).1.pointValues.length = 18) := by
  obtain ⟨-, -, -, hpv, -, -, -⟩ :=
    processChunk_validFrame s t frame hbuf hlen hhdr hok
  refine ⟨by simp [hpv], ?_, ?_, fun s2 h2 t2 bs =>
    processBytes_pointValues_length bs s2 t2 h2⟩
  · intro i hi
    rw [hpv, List.getD_eq_getElem _ _ (by simpa using hi)]
    simp [Nat.mul_comm]
  · intro v hv
    rw [hpv] at hv
    simp only [List.mem_map, List.mem_range] at hv
    obtain ⟨i, hi18, rfl⟩ := hv
    have h1 : frame.getD (2 + i * 2) 0 < 256 :=
      getD_lt_of_mem_bound frame hbytes _ (by omega)
    have h2 : frame.getD (3 + i * 2) 0 < 256 :=
      getD_lt_of_mem_bound frame hbytes _ (by omega)
    omega

/-- Witness for C5 at a concrete valid frame. -/
theorem decode_points_bigEndian_and_bounds_witness :
    (processChunk initState 0 exampleValidFrame).1.pointValues.length = 18 ∧
    (∀ i, i < 18 → (processChunk initState 0 exampleValidFrame).1.pointValues.getD i 0 =
      exampleValidFrame.getD (2 + 2 * i) 0 * 256 +
        exampleValidFrame.getD (3 + 2 * i) 0) ∧
    (∀ v ∈ (processChunk initState 0 exampleValidFrame).1.pointValues, v < 65536) ∧
    (∀ (s2 : SensorState), s2.pointValues.length = 18 →
      ∀ (t2 : Nat) (bs : List Nat),
        (processBytes s2 t2 bs).1.pointValues.length = 18) :=
  decode_points_bigEndian_and_bounds initState 0 exampleValidFrame
    (by decide) (by decide) (by decide) (by decide) (by decide)

/-- C3 counterexample: the stream `0xAA :: exampleValidFrame` (a spurious
header directly followed by a real checksum-valid frame), delivered in
`readBuffer`-sized chunks, does NOT resynchronize to the second header: the
second `0xAA` is consumed as the payload of the frame started at the first
`0xAA`, the garbage frame fails its checksum, the real frame is never
collected, and the retained sample stays untouched. -/
theorem double_header_single_delivery_cex :
    (processChunk initState 0 (exampleDoubleHeaderStream.take 39)).2 =
      [EVENT_CHECKSUM_ERROR] ∧
    (processChunk (processChunk initState 0 (exampleDoubleHeaderStream.take 39)).1 1
        (exampleDoubleHeaderStream.drop 39)).2 = [] ∧
    (processChunk (processChunk initState 0 (exampleDoubleHeaderStream.take 39)).1 1
        (exampleDoubleHeaderStream.drop 39)).1.dataUpdated = false ∧
    (processChunk (processChunk initState 0 (exampleDoubleHeaderStream.take 39)).1 1
        (exampleDoubleHeaderStream.drop 39)).1.pointValues =
      List.replicate 18 0 := by
  decide

/-- C3 amended: resynchronization to the second header happens only when the
spurious `0xAA` arrives in an earlier read chunk than the real frame — the
per-chunk `frameStarted` reset discards the first partial attempt, and the
frame starting at the second header is then collected and validated.  Within
a single chunk the second `0xAA` is consumed as payload of the frame started
at the first header (see the counterexample). -/
theorem double_header_resync_across_chunks (s : SensorState) (t1 t2 : Nat)
    (frame : List Nat) (hbuf : s.dataBuffer.length = 40)
    (hlen : frame.length = 39) (hhdr : frame.getD 0 0 = FRAME_HEADER)
    (hok : (∑ i ∈ Finset.range 38, frame.getD i 0) % 256 = frame.getD 38 0) :
    (processChunk s t1 [FRAME_HEADER]).2 = [] ∧
    (processChunk s t1 [FRAME_HEADER]).1.frameStarted = true ∧
    (processChunk s t1 [FRAME_HEADER]).1.bufferIndex = 1 ∧
    (processChunk (processChunk s t1 [FRAME_HEADER]).1 t2 frame).2 =
      [EVENT_DATA_RECEIVED] ∧
    (processChunk (processChunk s t1 [FRAME_HEADER]).1 t2 frame).1.currentFootType =
      frame.getD 1 0 ∧
    (processChunk (processChunk s t1 [FRAME_HEADER]).1 t2 frame).1.pointValues =
      (List.range 18).map (fun i =>
        frame.getD (2 + i * 2) 0 * 256 + frame.getD (3 + i * 2) 0) := by
  have hs1 : (processChunk s t1 [FRAME_HEADER]).1 =
      { s with frameStarted := true, bufferIndex := 1,
               dataBuffer := s.dataBuffer.set 0 FRAME_HEADER } := by
    simp [processChunk, processBytes, processByte, BUFFER_SIZE]
  have hev1 : (processChunk s t1 [FRAME_HEADER]).2 = [] := by
    simp [processChunk, processBytes, processByte, BUFFER_SIZE]
  have hbuf1 : (processChunk s t1 [FRAME_HEADER]).1.dataBuffer.length = 40 := by
    rw [hs1]
    simp [hbuf]
  obtain ⟨e1, e2, -, e4, -, -, -⟩ :=
    processChunk_validFrame (processChunk s t1 [FRAME_HEADER]).1 t2 frame
      hbuf1 hlen hhdr hok
  exact ⟨hev1, by rw [hs1], by rw [hs1], e1, e2, e4⟩

/-- Witness for the amended C3 at a concrete split delivery. -/
theorem double_header_resync_across_chunks_witness :
    (processChunk initState 0 [FRAME_HEADER]).2 = [] ∧
    (processChunk initState 0 [FRAME_HEADER]).1.frameStarted = true ∧
    (processChunk initState 0 [FRAME_HEADER]).1.bufferIndex = 1 ∧
    (processChunk (processChunk initState 0 [FRAME_HEADER]).1 1 exampleValidFrame).2 =
      [EVENT_DATA_RECEIVED] ∧
    (processChunk (processChunk initState 0 [FRAME_HEADER]).1 1
        exampleValidFrame).1.currentFootType = exampleValidFrame.getD 1 0 ∧
    (processChunk (processChunk initState 0 [FRAME_HEADER]).1 1
        exampleValidFrame).1.pointValues =
      (List.range 18).map (fun i =>
        exampleValidFrame.getD (2 + i * 2) 0 * 256 +
          exampleValidFrame.getD (3 + i * 2) 0) :=
  double_header_resync_across_chunks initState 0 1 exampleValidFrame
    (by decide) (by decide) (by decide) (by decide)

/-- In the non-degenerate case, the `Coordinates` output of
`getCenterOfPressure` is the rescaled weighted centroid. -/
theorem getCenterOfPressure_coords (footType : Nat) (pts : List Nat)
    (hnz : totalPressure pts ≠ 0) :
    getCenterOfPressure footType CoPFormat.Coordinates pts =
      CoPResult.coords
        ((weightedSumX footType pts / (totalPressure pts : ℚ) - 1/2) * 20)
        ((weightedSumY footType pts / (totalPressure pts : ℚ) - 1/2) * 20) := by
  rw [getCenterOfPressure.eq_def, if_neg hnz]

/-- Reading a uniformly scaled point list through `getD` scales the read. -/
theorem getD_map_mul (pts : List Nat) (c i : Nat) :
    (pts.map fun v => v * c).getD i 0 = pts.getD i 0 * c := by
  rw [List.getD_eq_getElem?_getD, List.getElem?_map,
    List.getD_eq_getElem?_getD]
  cases hq : pts[i]? <;> simp [hq]

/-- Uniform scaling multiplies the total pressure. -/
theorem totalPressure_map_mul (pts : List Nat) (c : Nat) :
    totalPressure (pts.map fun v => v * c) = totalPressure pts * c := by
  rw [totalPressure, totalPressure, Finset.sum_mul]
  exact Finset.sum_congr rfl fun i _ => getD_map_mul pts c i

/-- Uniform scaling multiplies the weighted x-sum. -/
theorem weightedSumX_map_mul (footType : Nat) (pts : List Nat) (c : Nat) :
    weightedSumX footType (pts.map fun v => v * c) =
      (c : ℚ) * weightedSumX footType pts := by
  rw [weightedSumX, weightedSumX, Finset.mul_sum]
  refine Finset.sum_congr rfl fun i _ => ?_
  rw [getD_map_mul]
  push_cast
  ring

/-- Uniform scaling multiplies the weighted y-sum. -/
theorem weightedSumY_map_mul (footType : Nat) (pts : List Nat) (c : Nat) :
    weightedSumY footType (pts.map fun v => v * c) =
      (c : ℚ) * weightedSumY footType pts := by
  rw [weightedSumY, weightedSumY, Finset.mul_sum]
  refine Finset.sum_congr rfl fun i _ => ?_
  rw [getD_map_mul]
  push_cast
  ring

/-- C7: with a non-zero total, multiplying every point value by the same
positive constant leaves the Center-of-Pressure coordinates unchanged (the
weighted average is invariant under uniform scaling). -/
theorem cop_scale_invariant (footType c : Nat) (pts : List Nat)
    (hc : 0 < c) (hnz : totalPressure pts ≠ 0) :
    getCenterOfPressure footType CoPFormat.Coordinates (pts.map fun v => v * c) =
      getCenterOfPressure footType CoPFormat.Coordinates pts := by
  have htot := totalPressure_map_mul pts c
  have hnz' : totalPressure (pts.map fun v => v * c) ≠ 0 := by
    rw [htot]
    exact Nat.mul_ne_zero hnz (by omega)
  have hcQ : (c : ℚ) ≠ 0 := Nat.cast_ne_zero.mpr (by omega)
  have hX : weightedSumX footType (pts.map fun v => v * c) /
      (totalPressure (pts.map fun v => v * c) : ℚ) =
      weightedSumX footType pts / (totalPressure pts : ℚ) := by
    rw [htot, weightedSumX_map_mul]
    push_cast
    rw [mul_comm ((totalPressure pts : ℚ)) (c : ℚ), mul_div_mul_left _ _ hcQ]
  have hY : weightedSumY footType (pts.map fun v => v * c) /
      (totalPressure (pts.map fun v => v * c) : ℚ) =
      weightedSumY footType pts / (totalPressure pts : ℚ) := by
    rw [htot, weightedSumY_map_mul]
    push_cast
    rw [mul_comm ((totalPressure pts : ℚ)) (c : ℚ), mul_div_mul_left _ _ hcQ]
  rw [getCenterOfPressure_coords footType _ hnz',
    getCenterOfPressure_coords footType pts hnz, hX, hY]

/-- Witness for C7 at a concrete sample and scale factor. -/
theorem cop_scale_invariant_witness :
    getCenterOfPressure 0x01 CoPFormat.Coordinates
        (examplePts.map fun v => v * 3) =
      getCenterOfPressure 0x01 CoPFormat.Coordinates examplePts :=
  cop_scale_invariant 0x01 3 examplePts (by decide) (by decide)

/-- The mirrored coordinate table reads back the base table with `x` flipped,
at every in-range position. -/
theorem mirrored_getD (i : Nat) (hi : i < 18) :
    ((basePointCoordinates.map fun c => (1 - c.1, c.2)).getD i (0, 0)) =
      (1 - (basePointCoordinates.getD i (0, 0)).1,
        (basePointCoordinates.getD i (0, 0)).2) := by
  have hblen : basePointCoordinates.length = 18 := by rfl
  rw [List.getD_eq_getElem _ _ (by rw [List.length_map, hblen]; omega),
    List.getElem_map, List.getD_eq_getElem _ _ (by rw [hblen]; omega)]

/-- The total pressure, cast to `ℚ`, as a sum of casts. -/
theorem totalPressure_cast (pts : List Nat) :
    ((totalPressure pts : ℕ) : ℚ) = ∑ i ∈ Finset.range 18, (pts.getD i 0 : ℚ) := by
  rw [totalPressure]
  push_cast
  rfl

/-- For the Right table the weighted x-sum is the total minus the Left
weighted x-sum (the `x ↦ 1 - x` mirror). -/
theorem weightedSumX_right (pts : List Nat) :
    weightedSumX 0x02 pts = (totalPressure pts : ℚ) - weightedSumX 0x01 pts := by
  rw [weightedSumX, weightedSumX, pointCoordinates, pointCoordinates,
    if_pos rfl, if_neg (by decide), totalPressure_cast, ← Finset.sum_sub_distrib]
  refine Finset.sum_congr rfl fun i hi => ?_
  rw [mirrored_getD i (Finset.mem_range.mp hi)]
  ring

/-- The Right and Left tables share every y-coordinate. -/
theorem weightedSumY_right (pts : List Nat) :
    weightedSumY 0x02 pts = weightedSumY 0x01 pts := by
  rw [weightedSumY, weightedSumY, pointCoordinates, pointCoordinates,
    if_pos rfl, if_neg (by decide)]
  refine Finset.sum_congr rfl fun i hi => ?_
  rw [mirrored_getD i (Finset.mem_range.mp hi)]

/-- C8: with a non-zero total, the scaled CoP for foot side Right is the
x-negation of the scaled CoP for foot side Left on the same 18 point values;
the Left and Unknown foot sides use the base coordinate table unmodified. -/
theorem cop_right_mirrors_left_x (pts : List Nat)
    (hnz : totalPressure pts ≠ 0) :
    (∃ x y, getCenterOfPressure 0x02 CoPFormat.Coordinates pts =
        CoPResult.coords x y ∧
      getCenterOfPressure 0x01 CoPFormat.Coordinates pts =
        CoPResult.coords (-x) y) ∧
    pointCoordinates 0x01 = basePointCoordinates ∧
    pointCoordinates 0xFF = basePointCoordinates := by
  have hTQ : ((totalPressure pts : ℕ) : ℚ) ≠ 0 := Nat.cast_ne_zero.mpr hnz
  refine ⟨⟨_, _, getCenterOfPressure_coords 0x02 pts hnz, ?_⟩,
    by rw [pointCoordinates]; exact if_neg (by decide),
    by rw [pointCoordinates]; exact if_neg (by decide)⟩
  rw [getCenterOfPressure_coords 0x01 pts hnz]
  have hx : (weightedSumX 0x01 pts / (totalPressure pts : ℚ) - 1/2) * 20 =
      -((weightedSumX 0x02 pts / (totalPressure pts : ℚ) - 1/2) * 20) := by
    rw [weightedSumX_right]
    field_simp
    ring
  have hy : (weightedSumY 0x01 pts / (totalPressure pts : ℚ) - 1/2) * 20 =
      (weightedSumY 0x02 pts / (totalPressure pts : ℚ) - 1/2) * 20 := by
    rw [weightedSumY_right]
  rw [hx, hy]

/-- Witness for C8 at a concrete sample. -/
theorem cop_right_mirrors_left_x_witness :
    (∃ x y, getCenterOfPressure 0x02 CoPFormat.Coordinates examplePts =
        CoPResult.coords x y ∧
      getCenterOfPressure 0x01 CoPFormat.Coordinates examplePts =
        CoPResult.coords (-x) y) ∧
    pointCoordinates 0x01 = basePointCoordinates ∧
    pointCoordinates 0xFF = basePointCoordinates :=
  cop_right_mirrors_left_x examplePts (by decide)

end PressureSensorLib
